import Mathlib

/-!
Verification of the normalized-difference index dashboard (`test7.py`).

The program is a single-file streamlit dashboard: it selects the
lowest-cloud-cover scene from a STAC catalog search, loads spectral bands
(uint16 rasters rescaled to reflectance by dividing by 10000), computes one of
four normalized-difference indices elementwise, computes min/max/mean/std
statistics ignoring not-a-number cells, and can persist the statistics as one
database row.

Modelling choices:
* A raster band is a flattened 2-D grid: `List ℚ`.  Raw asset data (uint16) is
  `List ℕ`.  Arithmetic is exact rational arithmetic; band cells produced by
  `load_band` are nonnegative (uint16 / 10000), so a zero denominator in a
  normalized difference means `0/0`, which IEEE arithmetic maps to NaN.  A NaN
  cell is modelled as `none : Option ℚ`.
* The rioxarray `reproject_match` operation is an external library call; it is
  passed in as an explicit function argument `reproject : Band → Band → Band`.
* `numpy.nanstd` (population standard deviation ignoring NaN) involves a square
  root, which leaves ℚ; it is modelled by its square `nanstd_sq` (the
  population variance over the non-NaN cells).  A statistic is NaN exactly when
  its square is, so NaN-propagation claims transfer unchanged.
* Database and UI side effects are modelled by explicit state passing: the
  table is a `List StatsRow`, a connection/execution failure is an explicit
  boolean of the environment, and `datetime.now()` is a `now : ℕ` parameter.
-/

/-- A loaded spectral band: flattened 2-D grid of float cell values. -/
abbrev Band := List ℚ

/-- A computed index grid; `none` is a not-a-number cell. -/
abbrev IndexArray := List (Option ℚ)

/-- One STAC catalog item: per-band raw raster data (uint16 cell values,
as served by the asset href, already squeezed to 2-D) and the
`eo:cloud_cover` property. -/
structure CatalogItem where
  assets : String → List ℕ
  cloud_cover : ℚ

/-- Python's `min(items, key=...)` over a list: `none` on the empty list
(`ValueError: min() arg is an empty sequence`), otherwise the first element
attaining the minimal key, found by a left fold that replaces the current
best only on a strictly smaller key.  Embeds line 86 of `test7.py`. -/
def select_item (items : List CatalogItem) : Option CatalogItem :=
  match items with
  | [] => none
  | x :: xs => some (xs.foldl (fun best y =>
      if y.cloud_cover < best.cloud_cover then y else best) x)

/-- `load_band(item, band_name, match=None)` (lines 90–95): fetch the raw
asset, reduce to 2-D, cast uint16 to float, divide by 10000, and, when a
match grid is given, reproject onto it.  The fetch/squeeze/cast steps are the
passage from the raw `List ℕ` to rational cell values. -/
def load_band (reproject : Band → Band → Band) (item : CatalogItem)
    (band_name : String) (mtch : Option Band) : Band :=
  let band : Band := (item.assets band_name).map (fun v : ℕ => (v : ℚ) / 10000)
  match mtch with
  | none => band
  | some m => reproject band m

/-- One cell of a normalized difference `(a - b) / (a + b)`.  Both operands
are nonnegative reflectances, so a zero denominator forces `a = b = 0` and the
float quotient is `0/0 =` NaN, modelled as `none`. -/
def normDiff (a b : ℚ) : Option ℚ :=
  if a + b = 0 then none else some ((a - b) / (a + b))

/-- `(nir - red) / (nir + red)` elementwise (line 103). -/
def ndvi_formula (nir red : Band) : IndexArray := List.zipWith normDiff nir red

/-- `(nir - swir) / (nir + swir)` elementwise (line 108). -/
def ndii_formula (nir swir : Band) : IndexArray := List.zipWith normDiff nir swir

/-- `(swir - nir) / (swir + nir)` elementwise (line 113). -/
def ndbi_formula (swir nir : Band) : IndexArray := List.zipWith normDiff swir nir

/-- `(green - nir) / (green + nir)` elementwise (line 118). -/
def ndwi_formula (green nir : Band) : IndexArray := List.zipWith normDiff green nir

/-- `calc_index` (lines 99–119): four recognized index names, each loading two
bands and combining them elementwise; an unrecognized name falls off the end
of the `if`/`elif` chain and returns Python `None`, modelled as `none`. -/
def calc_index (reproject : Band → Band → Band) (item : CatalogItem)
    (index : String) : Option IndexArray :=
  if index = "NDVI" then
    let red := load_band reproject item "B04" none
    let nir := load_band reproject item "B08" none
    some (ndvi_formula nir red)
  else if index = "NDII" then
    let swir := load_band reproject item "B11" none
    let nir := load_band reproject item "B08" (some swir)
    some (ndii_formula nir swir)
  else if index = "NDBI" then
    let swir := load_band reproject item "B11" none
    let nir := load_band reproject item "B08" (some swir)
    some (ndbi_formula swir nir)
  else if index = "NDWI" then
    let green := load_band reproject item "B03" none
    let nir := load_band reproject item "B08" none
    some (ndwi_formula green nir)
  else none

/-- One band-load event: the asset name requested and whether a match grid was
passed (so that the load ends in a reprojection). -/
structure LoadEvent where
  band : String
  matched : Bool
deriving Repr, DecidableEq

/-- `load_band` instrumented with its load event, for counting the band-load
operations a computation performs. -/
def load_band_t (reproject : Band → Band → Band) (item : CatalogItem)
    (band_name : String) (mtch : Option Band) : Band × List LoadEvent :=
  (load_band reproject item band_name mtch, [⟨band_name, mtch.isSome⟩])

/-- `calc_index` instrumented with the list of band-load events it performs,
in program order.  Its value component coincides with `calc_index`. -/
def calc_index_t (reproject : Band → Band → Band) (item : CatalogItem)
    (index : String) : Option IndexArray × List LoadEvent :=
  if index = "NDVI" then
    let red := load_band_t reproject item "B04" none
    let nir := load_band_t reproject item "B08" none
    (some (ndvi_formula nir.1 red.1), red.2 ++ nir.2)
  else if index = "NDII" then
    let swir := load_band_t reproject item "B11" none
    let nir := load_band_t reproject item "B08" (some swir.1)
    (some (ndii_formula nir.1 swir.1), swir.2 ++ nir.2)
  else if index = "NDBI" then
    let swir := load_band_t reproject item "B11" none
    let nir := load_band_t reproject item "B08" (some swir.1)
    (some (ndbi_formula swir.1 nir.1), swir.2 ++ nir.2)
  else if index = "NDWI" then
    let green := load_band_t reproject item "B03" none
    let nir := load_band_t reproject item "B08" none
    (some (ndwi_formula green.1 nir.1), green.2 ++ nir.2)
  else (none, [])

/-- `clean_data = index_data.where(~np.isnan(index_data))` (line 130): keep a
cell where it is not NaN, put NaN elsewhere. -/
def where_not_nan (xs : IndexArray) : IndexArray :=
  xs.map (fun c => match c with
    | some v => some v
    | none => none)

/-- The non-NaN cell values of an index array, in order. -/
def nanvals (xs : IndexArray) : List ℚ := xs.filterMap id

/-- `np.nanmin`: minimum over non-NaN cells; NaN when every cell is NaN. -/
def nanmin (xs : IndexArray) : Option ℚ :=
  match nanvals xs with
  | [] => none
  | v :: vs => some (vs.foldl min v)

/-- `np.nanmax`: maximum over non-NaN cells; NaN when every cell is NaN. -/
def nanmax (xs : IndexArray) : Option ℚ :=
  match nanvals xs with
  | [] => none
  | v :: vs => some (vs.foldl max v)

/-- `np.nanmean`: arithmetic mean over non-NaN cells; NaN when every cell is
NaN. -/
def nanmean (xs : IndexArray) : Option ℚ :=
  match nanvals xs with
  | [] => none
  | vs => some (vs.sum / vs.length)

/-- The square of `np.nanstd` (population variance over non-NaN cells); NaN
when every cell is NaN.  The standard deviation itself is its square root. -/
def nanstd_sq (xs : IndexArray) : Option ℚ :=
  match nanvals xs with
  | [] => none
  | vs =>
    let m : ℚ := vs.sum / vs.length
    some ((vs.map (fun v => (v - m) ^ 2)).sum / vs.length)

/-- The stats dict of lines 131–136 (keys Min / Max / Średnia / Odchylenie
standardowe); the standard deviation is carried by its square. -/
structure Stats where
  min_val : Option ℚ
  max_val : Option ℚ
  mean_val : Option ℚ
  std_sq_val : Option ℚ
deriving Repr, DecidableEq

/-- Lines 130–136: statistics of an index array, after the `where(~isnan)`
pass. -/
def compute_stats (xs : IndexArray) : Stats :=
  let clean := where_not_nan xs
  { min_val := nanmin clean
    max_val := nanmax clean
    mean_val := nanmean clean
    std_sq_val := nanstd_sq clean }

/-- One row of the `raster_stats` table (columns of the INSERT at lines
44–62); `calculation_date` is a timestamp. -/
structure StatsRow where
  index_name : String
  min_value : Option ℚ
  max_value : Option ℚ
  mean_value : Option ℚ
  std_dev : Option ℚ
  cloud_cover : ℚ
  calculation_date : ℕ
deriving Repr, DecidableEq

/-- `save_stats_to_db` (lines 39–73): open a connection, execute one
parameterized INSERT binding the stats dict values and `datetime.now()`,
commit.  The table is explicit state (`db`); `connOk = false` stands for any
connection or execution error, in which case the function raises (`.error`)
and the transaction leaves the table unchanged. -/
def save_stats_to_db (connOk : Bool) (db : List StatsRow) (index_name : String)
    (stats : Stats) (cloud_cover : ℚ) (now : ℕ) : Except String (List StatsRow) :=
  if connOk then
    .ok (db ++ [{ index_name := index_name
                  min_value := stats.min_val
                  max_value := stats.max_val
                  mean_value := stats.mean_val
                  std_dev := stats.std_sq_val
                  cloud_cover := cloud_cover
                  calculation_date := now }])
  else
    .error "connection failure"

/-- A user-visible streamlit message: `st.success` or `st.error`. -/
inductive UIMessage where
  | success : String → UIMessage
  | uerror : String → UIMessage
deriving Repr, DecidableEq

/-- The save-button handler (lines 149–158): one call to `save_stats_to_db`
inside `try`/`except`; on success a success message, on any exception an error
message built from the exception text, the session continuing with the table
unchanged and no retry. -/
def save_button (connOk : Bool) (db : List StatsRow) (index : String)
    (stats : Stats) (cloud_cover : ℚ) (now : ℕ) : List StatsRow × UIMessage :=
  match save_stats_to_db connOk db index stats cloud_cover now with
  | .ok db2 => (db2, .success "Statystyki zostały zapisane do bazy danych!")
  | .error e => (db, .uerror ("Błąd podczas zapisywania do bazy danych: " ++ e))

/-! ### Concrete inputs for the end-to-end scenario -/

/-- The synthetic scene of the end-to-end scenario: raw values that load to
red = [1, 2, 3, 4] and nir = [4, 3, 2, 1] after the /10000 rescale
(flattened 2×2 grids). -/
def demoItem : CatalogItem where
  assets := fun name =>
    if name = "B04" then [10000, 20000, 30000, 40000]
    else if name = "B08" then [40000, 30000, 20000, 10000]
    else []
  cloud_cover := 2

/-- A trivial reprojection for concrete runs: the grids already match, so
reprojection returns the band unchanged. -/
def idReproject : Band → Band → Band := fun b _ => b

/-! ### Helper lemmas -/

theorem zipWith_normDiff_getD (a b : Band) (i : ℕ) (ha : i < a.length)
    (hb : i < b.length) :
    (List.zipWith normDiff a b).getD i none = normDiff (a.getD i 0) (b.getD i 0) := by
  induction a generalizing b i with
  | nil => simp at ha
  | cons x xs ih =>
    cases b with
    | nil => simp at hb
    | cons y ys =>
      cases i with
      | zero => simp
      | succ n =>
        simp only [List.zipWith_cons_cons, List.getD_cons_succ]
        exact ih ys n (by simpa using ha) (by simpa using hb)

theorem normDiff_swap (a b : ℚ) :
    normDiff b a = Option.map (fun q => -q) (normDiff a b) := by
  by_cases h : a + b = 0
  · have h2 : b + a = 0 := by rw [add_comm]; exact h
    simp [normDiff, h, h2]
  · have h2 : b + a ≠ 0 := by rw [add_comm]; exact h
    have key : (b - a) / (b + a) = -((a - b) / (a + b)) := by
      rw [add_comm b a, ← neg_div, neg_sub]
    simp [normDiff, h, h2, key]

theorem zipWith_normDiff_swap (a b : Band) :
    List.zipWith normDiff b a =
      (List.zipWith normDiff a b).map (Option.map (fun q => -q)) := by
  induction a generalizing b with
  | nil => cases b <;> simp
  | cons x xs ih =>
    cases b with
    | nil => simp
    | cons y ys => simp [normDiff_swap x y, ih ys]

theorem scaled_getD (l : List ℕ) (i : ℕ) :
    (l.map (fun v : ℕ => (v : ℚ) / 10000)).getD i 0 = (l.getD i 0 : ℚ) / 10000 := by
  induction l generalizing i with
  | nil => simp
  | cons x xs ih =>
    cases i with
    | zero => simp
    | succ n => simpa using ih n

theorem where_not_nan_eq (xs : IndexArray) : where_not_nan xs = xs := by
  induction xs with
  | nil => rfl
  | cons c t ih =>
    cases c with
    | none => simpa [where_not_nan] using ih
    | some v => simpa [where_not_nan] using ih

theorem nanvals_map_some (l : List ℚ) : nanvals (l.map some) = l := by
  unfold nanvals
  induction l with
  | nil => rfl
  | cons x xs ih => simp [List.filterMap_cons, ih]

theorem nanvals_eq_nil (xs : IndexArray) (h : ∀ c ∈ xs, c = none) :
    nanvals xs = [] := by
  induction xs with
  | nil => rfl
  | cons c t ih =>
    have hc : c = none := h c (List.mem_cons_self c t)
    subst hc
    have ht : nanvals t = [] := ih (fun d hd => h d (List.mem_cons_of_mem _ hd))
    simpa [nanvals, List.filterMap_cons] using ht

theorem compute_stats_congr (xs ys : IndexArray) (h : nanvals xs = nanvals ys) :
    compute_stats xs = compute_stats ys := by
  have h1 : nanmin xs = nanmin ys := by unfold nanmin; rw [h]
  have h2 : nanmax xs = nanmax ys := by unfold nanmax; rw [h]
  have h3 : nanmean xs = nanmean ys := by unfold nanmean; rw [h]
  have h4 : nanstd_sq xs = nanstd_sq ys := by unfold nanstd_sq; rw [h]
  simp [compute_stats, where_not_nan_eq, h1, h2, h3, h4]

/-! ### Claims -/

/-- C1: for each recognized index name, `calc_index` returns the elementwise
normalized difference of the two bands fixed for that index, with the sign and
operand order fixed per index (NDVI over B08/B04, NDII over B08 reprojected to
B11's grid and B11, NDBI the same pair reversed, NDWI over B03/B08), and a
cell whose denominator is zero holds not-a-number rather than raising. -/
theorem calc_index_normalized_difference (reproject : Band → Band → Band)
    (item : CatalogItem) :
    (calc_index reproject item "NDVI" =
      some (List.zipWith (fun n r => if n + r = 0 then none else some ((n - r) / (n + r)))
        ((item.assets "B08").map (fun v : ℕ => (v : ℚ) / 10000))
        ((item.assets "B04").map (fun v : ℕ => (v : ℚ) / 10000))))
    ∧ (calc_index reproject item "NDII" =
      some (List.zipWith (fun n s => if n + s = 0 then none else some ((n - s) / (n + s)))
        (reproject ((item.assets "B08").map (fun v : ℕ => (v : ℚ) / 10000))
          ((item.assets "B11").map (fun v : ℕ => (v : ℚ) / 10000)))
        ((item.assets "B11").map (fun v : ℕ => (v : ℚ) / 10000))))
    ∧ (calc_index reproject item "NDBI" =
      some (List.zipWith (fun s n => if s + n = 0 then none else some ((s - n) / (s + n)))
        ((item.assets "B11").map (fun v : ℕ => (v : ℚ) / 10000))
        (reproject ((item.assets "B08").map (fun v : ℕ => (v : ℚ) / 10000))
          ((item.assets "B11").map (fun v : ℕ => (v : ℚ) / 10000)))))
    ∧ (calc_index reproject item "NDWI" =
      some (List.zipWith (fun g n => if g + n = 0 then none else some ((g - n) / (g + n)))
        ((item.assets "B03").map (fun v : ℕ => (v : ℚ) / 10000))
        ((item.assets "B08").map (fun v : ℕ => (v : ℚ) / 10000))))
    ∧ (∀ (a b : Band) (i : ℕ), i < a.length → i < b.length →
        ((List.zipWith normDiff a b).getD i none = none ↔ a.getD i 0 + b.getD i 0 = 0)) :=
  ⟨rfl, rfl, rfl, rfl, by
    intro a b i ha hb
    rw [zipWith_normDiff_getD a b i ha hb]
    unfold normDiff
    by_cases h : a.getD i 0 + b.getD i 0 = 0 <;> simp [h]⟩

/-- C1 witness: at a concrete band pair, a cell is not-a-number exactly when
its denominator vanishes. -/
theorem calc_index_normalized_difference_witness :
    (List.zipWith normDiff [(0 : ℚ), 1] [(0 : ℚ), 2]).getD 0 none = none ↔
      (([(0 : ℚ), 1] : Band).getD 0 0 + ([(0 : ℚ), 2] : Band).getD 0 0 = 0) :=
  (calc_index_normalized_difference idReproject demoItem).2.2.2.2
    [(0 : ℚ), 1] [(0 : ℚ), 2] 0 (by decide) (by decide)

/-- C2: on the synthetic scene (red = [[1,2],[3,4]], nir = [[4,3],[2,1]] after
rescaling), NDVI equals [[0.6, 0.2], [−0.2, −0.6]] and the statistics are
min = −0.6, max = 0.6, mean = 0, and standard deviation the one of these four
values (its square, the population variance, is 1/5). -/
theorem ndvi_scenario :
    calc_index idReproject demoItem "NDVI" =
      some [some (3/5), some (1/5), some (-(1/5)), some (-(3/5))]
    ∧ compute_stats [some (3/5), some (1/5), some (-(1/5)), some (-(3/5))] =
      { min_val := some (-(3/5)), max_val := some (3/5), mean_val := some 0,
        std_sq_val := some (1/5) } := by
  constructor
  · have h : (("B08" : String) = "B04") = False := eq_false (by decide)
    norm_num [calc_index, load_band, demoItem, idReproject, ndvi_formula, h, normDiff]
  · norm_num [compute_stats, where_not_nan, nanvals, nanmin, nanmax, nanmean,
      nanstd_sq, List.filterMap_cons, min_def, max_def]

/-- C5: with a working connection, the save button inserts exactly one row
into `raster_stats`, carrying the stats values and `calculation_date = now`,
and reports success; on a connection or execution error the exception is
caught at the call site, an error message is surfaced, the table is unchanged
(no row inserted), and no retry happens. -/
theorem persistence_spec (db : List StatsRow) (index_name : String)
    (stats : Stats) (cloud_cover : ℚ) (now : ℕ) :
    (save_button true db index_name stats cloud_cover now =
      (db ++ [{ index_name := index_name
                min_value := stats.min_val
                max_value := stats.max_val
                mean_value := stats.mean_val
                std_dev := stats.std_sq_val
                cloud_cover := cloud_cover
                calculation_date := now }],
       UIMessage.success "Statystyki zostały zapisane do bazy danych!"))
    ∧ ((save_button true db index_name stats cloud_cover now).1.length =
        db.length + 1)
    ∧ (save_button false db index_name stats cloud_cover now =
      (db, UIMessage.uerror
        ("Błąd podczas zapisywania do bazy danych: " ++ "connection failure"))) :=
  ⟨rfl, by simp [save_button, save_stats_to_db], rfl⟩

/-- C6: an index name outside the four recognized ones falls through the
`if`/`elif` chain with no explicit error handling and yields the implicit
empty result (Python `None`), not an exception. -/
theorem calc_index_unrecognized (reproject : Band → Band → Band)
    (item : CatalogItem) (index : String)
    (h : index ∉ (["NDVI", "NDII", "NDBI", "NDWI"] : List String)) :
    calc_index reproject item index = none := by
  simp only [List.mem_cons, List.not_mem_nil, or_false, not_or] at h
  simp [calc_index, h.1, h.2.1, h.2.2.1, h.2.2.2]

/-- C6 witness: the unrecognized name "FOO" yields no value. -/
theorem calc_index_unrecognized_witness :
    calc_index idReproject demoItem "FOO" = none :=
  calc_index_unrecognized idReproject demoItem "FOO" (by decide)

/-- C7: `load_band` returns the fetched asset's grid with every cell divided
by 10000 exactly once (same length, cell `i` equal to raw cell `i` / 10000),
and, when a match grid is supplied, the reprojection is applied to that
scaled band before it is returned. -/
theorem load_band_spec (reproject : Band → Band → Band) (item : CatalogItem)
    (name : String) :
    ((load_band reproject item name none).length = (item.assets name).length)
    ∧ (∀ i : ℕ, (load_band reproject item name none).getD i 0 =
        ((item.assets name).getD i 0 : ℚ) / 10000)
    ∧ (∀ m : Band, load_band reproject item name (some m) =
        reproject (load_band reproject item name none) m) :=
  ⟨by simp [load_band], fun i => scaled_getD (item.assets name) i, fun m => rfl⟩

theorem select_fold_spec (xs : List CatalogItem) (x : CatalogItem) :
    (xs.foldl (fun best y => if y.cloud_cover < best.cloud_cover then y else best) x ∈ x :: xs)
    ∧ (xs.foldl (fun best y => if y.cloud_cover < best.cloud_cover then y else best) x).cloud_cover
        ≤ x.cloud_cover
    ∧ (∀ y ∈ xs,
        (xs.foldl (fun best y => if y.cloud_cover < best.cloud_cover then y else best) x).cloud_cover
          ≤ y.cloud_cover) := by
  induction xs generalizing x with
  | nil => simp
  | cons z zs ih =>
    simp only [List.foldl_cons]
    rcases ih (if z.cloud_cover < x.cloud_cover then z else x) with ⟨hmem, hle, hall⟩
    have hstep : (if z.cloud_cover < x.cloud_cover then z else x).cloud_cover ≤ x.cloud_cover := by
      by_cases hz : z.cloud_cover < x.cloud_cover
      · rw [if_pos hz]; exact le_of_lt hz
      · rw [if_neg hz]
    have hstepz : (if z.cloud_cover < x.cloud_cover then z else x).cloud_cover ≤ z.cloud_cover := by
      by_cases hz : z.cloud_cover < x.cloud_cover
      · rw [if_pos hz]
      · rw [if_neg hz]; exact le_of_not_lt hz
    refine ⟨?_, le_trans hle hstep, ?_⟩
    · rcases List.mem_cons.mp hmem with h | h
      · rw [h]
        by_cases hz : z.cloud_cover < x.cloud_cover
        · simp [hz]
        · simp [hz]
      · exact List.mem_cons_of_mem _ (List.mem_cons_of_mem _ h)
    · intro y hy
      rcases List.mem_cons.mp hy with h | h
      · subst h; exact le_trans hle hstepz
      · exact hall y h

/-- C3: catalog item selection returns the item minimizing the cloud-cover
property (for cloud covers [5, 2, 9] it is the item with 2), and on an empty
search result the minimum step fails (Python `min` raises on an empty
sequence, modelled as `none`); no handler catches it. -/
theorem select_item_min_cloud :
    (select_item [] = none)
    ∧ (∀ items : List CatalogItem, items ≠ [] →
        ∃ sel, select_item items = some sel ∧ sel ∈ items ∧
          ∀ y ∈ items, sel.cloud_cover ≤ y.cloud_cover)
    ∧ (∀ a b c : CatalogItem, a.cloud_cover = 5 → b.cloud_cover = 2 →
        c.cloud_cover = 9 → select_item [a, b, c] = some b) := by
  refine ⟨rfl, ?_, ?_⟩
  · intro items hne
    cases items with
    | nil => exact absurd rfl hne
    | cons x xs =>
      rcases select_fold_spec xs x with ⟨hmem, hle, hall⟩
      refine ⟨_, rfl, hmem, ?_⟩
      intro y hy
      rcases List.mem_cons.mp hy with h | h
      · subst h; exact hle
      · exact hall y h
  · intro a b c ha hb hc
    norm_num [select_item, ha, hb, hc]

/-- An item with cloud cover 5 and no raster data, for concrete runs. -/
def itemA : CatalogItem := ⟨fun _ => [], 5⟩

/-- An item with cloud cover 2 and no raster data, for concrete runs. -/
def itemB : CatalogItem := ⟨fun _ => [], 2⟩

/-- An item with cloud cover 9 and no raster data, for concrete runs. -/
def itemC : CatalogItem := ⟨fun _ => [], 9⟩

/-- C3 witness: on the concrete cloud covers [5, 2, 9], the item with 2 is
selected. -/
theorem select_item_min_cloud_witness :
    select_item [itemA, itemB, itemC] = some itemB :=
  select_item_min_cloud.2.2 itemA itemB itemC rfl rfl rfl

/-- C4: the statistics exclude not-a-number cells — they are unchanged when
the NaN cells are dropped — and over an all-NaN array all four statistics are
themselves NaN. -/
theorem stats_exclude_nan :
    (∀ xs : IndexArray, compute_stats xs = compute_stats ((nanvals xs).map some))
    ∧ (∀ xs : IndexArray, (∀ c ∈ xs, c = none) →
        compute_stats xs =
          { min_val := none, max_val := none, mean_val := none, std_sq_val := none }) := by
  constructor
  · intro xs
    exact compute_stats_congr xs _ (by rw [nanvals_map_some])
  · intro xs h
    have h0 : nanvals xs = [] := nanvals_eq_nil xs h
    simp [compute_stats, where_not_nan_eq, nanmin, nanmax, nanmean, nanstd_sq, h0]

/-- C4 witness: on an all-NaN two-cell array, all four statistics are NaN. -/
theorem stats_exclude_nan_witness :
    compute_stats [none, none] =
      { min_val := none, max_val := none, mean_val := none, std_sq_val := none } :=
  stats_exclude_nan.2 [none, none] (by decide)

/-- C8: with two equal-valued bands, each of the four index formulas yields
zero at every cell whose denominator (the sum of the two bands) is nonzero. -/
theorem equal_bands_zero (a : Band) (i : ℕ) (hi : i < a.length)
    (hd : a.getD i 0 + a.getD i 0 ≠ 0) :
    (ndvi_formula a a).getD i none = some 0
    ∧ (ndii_formula a a).getD i none = some 0
    ∧ (ndbi_formula a a).getD i none = some 0
    ∧ (ndwi_formula a a).getD i none = some 0 := by
  have key : (List.zipWith normDiff a a).getD i none = some 0 := by
    rw [zipWith_normDiff_getD a a i hi hi]
    unfold normDiff
    rw [if_neg hd]
    simp
  exact ⟨key, key, key, key⟩

/-- C8 witness: on the one-cell band [1/2], all four formulas give zero. -/
theorem equal_bands_zero_witness :
    (ndvi_formula [(1 : ℚ)/2] [(1 : ℚ)/2]).getD 0 none = some 0
    ∧ (ndii_formula [(1 : ℚ)/2] [(1 : ℚ)/2]).getD 0 none = some 0
    ∧ (ndbi_formula [(1 : ℚ)/2] [(1 : ℚ)/2]).getD 0 none = some 0
    ∧ (ndwi_formula [(1 : ℚ)/2] [(1 : ℚ)/2]).getD 0 none = some 0 :=
  equal_bands_zero [(1 : ℚ)/2] 0 (by simp) (by norm_num [List.getD_cons_zero])

/-- C9 counterexample: the NDII computation performs exactly two band-load
operations, not three — `load_band` is invoked twice, the second time with the
match grid, and the reprojection is part of that second load, not a third
one. -/
theorem ndii_loads_counterexample :
    (calc_index_t idReproject demoItem "NDII").2.length = 2
    ∧ ¬((calc_index_t idReproject demoItem "NDII").2.length = 3) := by
  have h2 : (calc_index_t idReproject demoItem "NDII").2.length = 2 := rfl
  exact ⟨h2, by rw [h2]; decide⟩

/-- C9 (amended): every recognized index computation performs exactly two
band-load operations; in the swir-matched cases (NDII, NDBI) the second load
carries a match grid and so ends in a reprojection, but no third load
happens.  The traced computation agrees with `calc_index` on the value. -/
theorem calc_index_two_loads (reproject : Band → Band → Band) (item : CatalogItem) :
    ((calc_index_t reproject item "NDVI").2 = [⟨"B04", false⟩, ⟨"B08", false⟩])
    ∧ ((calc_index_t reproject item "NDII").2 = [⟨"B11", false⟩, ⟨"B08", true⟩])
    ∧ ((calc_index_t reproject item "NDBI").2 = [⟨"B11", false⟩, ⟨"B08", true⟩])
    ∧ ((calc_index_t reproject item "NDWI").2 = [⟨"B03", false⟩, ⟨"B08", false⟩])
    ∧ (∀ index ∈ (["NDVI", "NDII", "NDBI", "NDWI"] : List String),
        (calc_index_t reproject item index).2.length = 2)
    ∧ (∀ index : String,
        (calc_index_t reproject item index).1 = calc_index reproject item index) := by
  refine ⟨rfl, rfl, rfl, rfl, ?_, ?_⟩
  · intro index hidx
    simp only [List.mem_cons, List.not_mem_nil, or_false] at hidx
    rcases hidx with rfl | rfl | rfl | rfl <;> rfl
  · intro index
    by_cases h1 : index = "NDVI"
    · subst h1; rfl
    · by_cases h2 : index = "NDII"
      · subst h2; rfl
      · by_cases h3 : index = "NDBI"
        · subst h3; rfl
        · by_cases h4 : index = "NDWI"
          · subst h4; rfl
          · unfold calc_index_t calc_index
            rw [if_neg h1, if_neg h2, if_neg h3, if_neg h4,
              if_neg h1, if_neg h2, if_neg h3, if_neg h4]

/-- C9 witness: the NDVI computation performs two band-load operations. -/
theorem calc_index_two_loads_witness :
    (calc_index_t idReproject demoItem "NDVI").2.length = 2 :=
  (calc_index_two_loads idReproject demoItem).2.2.2.2.1 "NDVI" (by decide)

/-- C10: NDBI is the elementwise negation of NDII (same loaded swir/nir
data), and each of the two formulas is not-a-number at a cell exactly when
the shared denominator swir + nir vanishes there. -/
theorem ndbi_neg_ndii (reproject : Band → Band → Band) (item : CatalogItem) :
    (calc_index reproject item "NDBI" =
      (calc_index reproject item "NDII").map (List.map (Option.map (fun q => -q))))
    ∧ (∀ (swir nir : Band) (i : ℕ), i < swir.length → i < nir.length →
        (((ndbi_formula swir nir).getD i none = none ↔
            swir.getD i 0 + nir.getD i 0 = 0)
         ∧ ((ndii_formula nir swir).getD i none = none ↔
            swir.getD i 0 + nir.getD i 0 = 0))) := by
  constructor
  · have h1 : calc_index reproject item "NDBI" =
        some (ndbi_formula (load_band reproject item "B11" none)
          (load_band reproject item "B08"
            (some (load_band reproject item "B11" none)))) := rfl
    have h2 : calc_index reproject item "NDII" =
        some (ndii_formula (load_band reproject item "B08"
            (some (load_band reproject item "B11" none)))
          (load_band reproject item "B11" none)) := rfl
    rw [h1, h2]
    exact congrArg some (zipWith_normDiff_swap
      (load_band reproject item "B08" (some (load_band reproject item "B11" none)))
      (load_band reproject item "B11" none))
  · intro swir nir i hs hn
    constructor
    · unfold ndbi_formula
      rw [zipWith_normDiff_getD swir nir i hs hn]
      unfold normDiff
      by_cases h : swir.getD i 0 + nir.getD i 0 = 0 <;> simp [h]
    · unfold ndii_formula
      rw [zipWith_normDiff_getD nir swir i hn hs]
      unfold normDiff
      rw [add_comm (nir.getD i 0) (swir.getD i 0)]
      by_cases h : swir.getD i 0 + nir.getD i 0 = 0 <;> simp [h]

/-- C10 witness: on one-cell bands swir = [0] and nir = [0], both formulas
are not-a-number and the shared denominator is zero. -/
theorem ndbi_neg_ndii_witness :
    ((ndbi_formula [(0 : ℚ)] [(0 : ℚ)]).getD 0 none = none ↔
      (([(0 : ℚ)] : Band).getD 0 0 + ([(0 : ℚ)] : Band).getD 0 0 = 0))
    ∧ ((ndii_formula [(0 : ℚ)] [(0 : ℚ)]).getD 0 none = none ↔
      (([(0 : ℚ)] : Band).getD 0 0 + ([(0 : ℚ)] : Band).getD 0 0 = 0)) :=
  (ndbi_neg_ndii idReproject demoItem).2 [(0 : ℚ)] [(0 : ℚ)] 0 (by simp) (by simp)
